import Mathlib

/-!
Verification of the round-state tracking and card-resolution pipeline of the
Dragon-vs-Tiger observation system.  Each definition is a shallow embedding
of the corresponding Python function; theorems settle the frozen claims.
-/

namespace DragonTiger

/-! ## String-level utilities (Python `str.split(sep)` and `int(...)`)

Card strings and outcome lists are manipulated as `List Char`, mirroring the
Python string values such as `"7|h"` and `"10#20#30"`. -/

/-- Python `s.split(sep)` for a one-character separator: always returns a
non-empty list of (possibly empty) chunks. -/
def splitOnChar (sep : Char) : List Char → List (List Char)
  | [] => [[]]
  | c :: cs =>
    if c = sep then [] :: splitOnChar sep cs
    else
      match splitOnChar sep cs with
      | [] => [[c]]
      | l :: ls => (c :: l) :: ls

/-- Parse a non-empty run of decimal digits (the digit strings occurring in
this code base); `none` on an empty or non-digit input. -/
def parseNatDigits (s : List Char) : Option Nat :=
  if s = [] then none
  else
    s.foldl
      (fun acc c =>
        match acc with
        | none => none
        | some n => if c.isDigit then some (n * 10 + (c.toNat - '0'.toNat)) else none)
      (some 0)

/-- Python `int(str)` restricted to the optionally-signed decimal strings this
program produces; `none` models the `ValueError` branch. -/
def parseInt (s : List Char) : Option Int :=
  match s with
  | '-' :: rest => (parseNatDigits rest).map (fun n => -(n : Int))
  | _ => (parseNatDigits s).map (fun n => (n : Int))

/-- Decimal rendering of a rank, as produced by the f-string
`f"{rank}|{suit}"` in `_recognize_cards`. -/
def natDigits (n : Nat) : List Char := Nat.toDigits 10 n

/-- The wire form `f"{rank}|{suit}"` of a recognized card. -/
def mkCardStr (rank : Nat) (suit : List Char) : List Char :=
  natDigits rank ++ '|' :: suit

/-! ## Round Resolver (`GameProcessor._calculate_result`) -/

/-- The AI-result dict `{"1": cardStr, "2": cardStr}`; a missing key is
`none` (the Python dict `.get` then supplies the default `"0|0"`). -/
structure AiResult where
  card1 : Option (List Char)
  card2 : Option (List Char)
  deriving Repr, DecidableEq

/-- The unknown-card marker `"0|0"`. -/
def unknownCard : List Char := ['0', '|', '0']

/-- `parse_rank` inside `_calculate_result`: `None` for the empty string or
the `"0|0"` marker, otherwise `int(card_str.split("|")[0])` with `ValueError`
mapped to `None`. -/
def parse_rank (card_str : List Char) : Option Int :=
  if card_str = [] ∨ card_str = unknownCard then none
  else
    match splitOnChar '|' card_str with
    | [] => none
    | rank_str :: _ => parseInt rank_str

/-- The `{"result": _, "ext": _}` record returned by `_calculate_result`. -/
structure CalcOut where
  result : String
  ext : String
  deriving Repr, DecidableEq

/-- `GameProcessor._calculate_result`: compare the two parsed ranks;
`"1"` dragon wins, `"2"` tiger wins, `"3"` tie, `ext` fixed at `"0"`;
`None` when either rank fails to parse. -/
def calculate_result (ai : AiResult) : Option CalcOut :=
  let dragon_rank := parse_rank (ai.card1.getD unknownCard)
  let tiger_rank := parse_rank (ai.card2.getD unknownCard)
  match dragon_rank, tiger_rank with
  | some d, some t =>
    some { result := if d > t then "1" else if t > d then "2" else "3", ext := "0" }
  | _, _ => none

/-! ## Sync Reconciler (`windows_ui._check_and_incremental_sync`) -/

/-- The corrective action chosen by `_check_and_incremental_sync`; the
`incremental` payload carries the `(online_count, source_count)` arguments the
code passes to `_do_incremental_sync`. -/
inductive SyncDecision where
  | consistent
  | incremental (online_count source_count : Int)
  | fullResync
  | shoeAdvance
  deriving Repr, DecidableEq

/-- The `diff = source_pu - online_pu` decision chain of
`_check_and_incremental_sync` (the trailing `consistent` is the Python
fall-through, unreachable because the `elif` chain is exhaustive). -/
def check_and_incremental_sync (source_pu online_pu : Int) : SyncDecision :=
  let diff := source_pu - online_pu
  if diff = 0 then .consistent
  else if diff = 1 then .consistent
  else if diff ≥ 2 then .incremental (online_pu - 1) (source_pu - 1)
  else if diff = -1 then .consistent
  else if diff ≤ -10 then .shoeAdvance
  else if diff ≤ -2 then .fullResync
  else .consistent

/-! ## State Tracker (`BrowserMonitor`)

The tracker state consists of the shoe number `current_xue`, the round
number `current_pu`, and the last observed API outcome-list length
`_last_pu_count`; callbacks fired by a transition are recorded as events. -/

structure MonState where
  current_xue : Int
  current_pu : Int
  last_pu_count : Option Int
  deriving Repr, DecidableEq

/-- Callback invocations observable from a tracker transition
(`on_xue_change`, `on_pu_change`, `on_shoe_change`, `on_new_game`). -/
inductive MonEvent where
  | xueChange (xue : Int)
  | puChange (pu : Int)
  | shoeChange
  | newGame (game : List Char)
  deriving Repr, DecidableEq

/-- `BrowserMonitor._trigger_shoe_change`: reset `current_pu` to 1, notify
`on_pu_change(1)` and `on_shoe_change()`; `current_xue` is not touched. -/
def trigger_shoe_change (st : MonState) : MonState × List MonEvent :=
  ({ st with current_pu := 1 }, [.puChange 1, .shoeChange])

/-- The fields of the sniffed API payload consumed by `_handle_game_api`:
`result` (the `#`-joined outcome-code list) and `xue` (the shoe id), both raw
strings of the query-string payload. -/
structure ApiData where
  result : List Char
  xue : List Char
  deriving Repr, DecidableEq

/-- `results = [r for r in result.split('#') if r]` (with Python's
`"".split('#') == ['']`, an empty `result` yields the empty list). -/
def apiResults (result : List Char) : List (List Char) :=
  (splitOnChar '#' result).filter (· ≠ [])

/-- The 更新靴号 block of `_handle_game_api`: `if xue:` then `int(xue)` with
`ValueError`/`TypeError` ignored; on a changed value store it and notify
`on_xue_change`. -/
def xue_update (st : MonState) (xue : List Char) : MonState × List MonEvent :=
  match (if xue ≠ [] then parseInt xue else none) with
  | some newXue =>
    if newXue ≠ st.current_xue then
      ({ st with current_xue := newXue }, [MonEvent.xueChange newXue])
    else (st, [])
  | none => (st, [])

/-- The 换靴检测 block of `_handle_game_api`: condition 1 fires when the
previously observed count was positive and the list is now empty; condition 2
when the previous count exceeded 10, the new count is below 5 and the drop
exceeds 10; either calls `_trigger_shoe_change`. -/
def shoe_detect (st : MonState) (pu_count : Int) : MonState × List MonEvent :=
  match st.last_pu_count with
  | some last =>
    if last > 0 ∧ pu_count = 0 then trigger_shoe_change st
    else if last > 10 ∧ pu_count < 5 ∧ last - pu_count > 10 then trigger_shoe_change st
    else (st, [])
  | none => (st, [])

/-- The 路单数据处理 block of `_handle_game_api`: when `result` is truthy set
`current_pu` to `pu_count + 1` if it differs, notifying `on_pu_change`. -/
def pu_calibrate (st : MonState) (result : List Char) (pu_count : Int) :
    MonState × List MonEvent :=
  if result ≠ [] then
    let expected := pu_count + 1
    if expected ≠ st.current_pu then
      ({ st with current_pu := expected }, [MonEvent.puChange expected])
    else (st, [])
  else (st, [])

/-- `BrowserMonitor._handle_game_api`: update the shoe id from the `xue`
field, run the two shoe-change detections against `_last_pu_count`, record
the new outcome-list length, and when the outcome list is non-empty
recalibrate `current_pu` to `len(results) + 1`. -/
def handle_game_api (st : MonState) (data : ApiData) : MonState × List MonEvent :=
  let p1 := xue_update st data.xue
  let pu_count : Int := (apiResults data.result).length
  let p2 := shoe_detect p1.1 pu_count
  let st3 := { p2.1 with last_pu_count := some pu_count }
  let p3 := pu_calibrate st3 data.result pu_count
  (p3.1, p1.2 ++ p2.2 ++ p3.2)

/-- The slice of `state_cache` touched by the game-number section of
`_check_dom_changes` (`game_number`, `cards_visible`) plus `current_pu`. -/
structure DomTrackState where
  game_number : Option (List Char)
  current_pu : Int
  cards_visible : Bool
  deriving Repr, DecidableEq

/-- Python truthiness of a DOM string that may be absent (`None`) or empty. -/
def truthyStr : Option (List Char) → Bool
  | none => false
  | some s => s ≠ []

/-- Section "3. 局号变化" of `BrowserMonitor._check_dom_changes`: when the
DOM-derived game-number differs from the cached value, cache it and clear
`cards_visible`; increment `current_pu` (notifying `on_pu_change`) only when
the old value was non-null and the new value truthy; notify `on_new_game`
whenever the new value is truthy. -/
def handle_game_number (st : DomTrackState) (new_val : Option (List Char)) :
    DomTrackState × List MonEvent :=
  if new_val ≠ st.game_number then
    let st1 := { st with game_number := new_val, cards_visible := false }
    let (st2, ev1) :=
      if st.game_number ≠ none ∧ truthyStr new_val then
        ({ st1 with current_pu := st1.current_pu + 1 },
         [MonEvent.puChange (st1.current_pu + 1)])
      else (st1, ([] : List MonEvent))
    let ev2 := if truthyStr new_val then [MonEvent.newGame (new_val.getD [])] else []
    (st2, ev1 ++ ev2)
  else (st, [])

/-! ## Monitor loop (`BrowserMonitor._monitor_loop`) -/

/-- What happens inside one iteration of the polling loop: the task is
cancelled at an await point, the page is missing or closed, the DOM check
succeeds or raises, or an unexpected exception reaches the outer handler. -/
inductive IterSignal where
  | cancelled
  | pageMissing
  | pageClosed
  | domOk
  | domFail
  | unexpectedExc
  deriving Repr, DecidableEq

/-- Whether an iteration exits the loop or continues (and whether it took
the consecutive-failure backoff sleep before continuing). -/
inductive IterOutcome where
  | exit
  | cont (backoff : Bool)
  deriving Repr, DecidableEq

/-- One iteration of `_monitor_loop` as a function of `is_running`, the
iteration's signal and the `consecutive_errors` counter: `break` only on
`is_running == False` or `CancelledError`; a DOM-check failure increments the
counter and, once it reaches `max_consecutive_errors = 10`, sleeps 5 s and
resets the counter to 0; every other exception is swallowed and the loop
continues. -/
def monitor_iteration (is_running : Bool) (sig : IterSignal) (consecutive_errors : Nat) :
    IterOutcome × Nat :=
  if sig = .cancelled then (.exit, consecutive_errors)
  else if is_running = false then (.exit, consecutive_errors)
  else
    match sig with
    | .cancelled => (.exit, consecutive_errors)
    | .pageMissing => (.cont false, consecutive_errors)
    | .pageClosed => (.cont false, consecutive_errors)
    | .domOk => (.cont false, 0)
    | .domFail =>
      let e := consecutive_errors + 1
      if e ≥ 10 then (.cont true, 0) else (.cont false, e)
    | .unexpectedExc => (.cont false, consecutive_errors)

/-- The error-counter evolution of one running iteration that hits a
DOM-check failure. -/
def domFailStep (errs : Nat) : Nat := (monitor_iteration true .domFail errs).2

/-! ## Decoder (`HttpMonitor.decompress`, `RoadmapSyncer._decompress_response`,
`APIFetcher._decrypt`)

Each decompression strategy (`zlib.decompress` with the gzip / zlib / raw
window, `bytes.decode('utf-8')`, `bytes.decode('gbk')`) is opaque; a decoder
is the order in which it tries them, taking for the given input an abstract
outcome table `res : Strategy → Option String`. -/

inductive Strategy where
  | gzipInflate
  | zlibInflate
  | rawDeflate
  | utf8Decode
  | gbkDecode
  deriving Repr, DecidableEq

/-- Run strategies left to right, returning the first success (each single
failure is swallowed by a bare `except: pass`). -/
def tryStrategies (res : Strategy → Option String) : List Strategy → Option String
  | [] => none
  | s :: rest =>
    match res s with
    | some t => some t
    | none => tryStrategies res rest

/-- The strategy order of `HttpMonitor.decompress`: gzip, zlib, raw deflate,
UTF-8, GBK. -/
def httpDecompressOrder : List Strategy :=
  [.gzipInflate, .zlibInflate, .rawDeflate, .utf8Decode, .gbkDecode]

/-- `HttpMonitor.decompress`: `None` immediately for an empty body, otherwise
the first success among gzip, zlib, raw deflate, UTF-8, GBK. -/
def http_decompress (body : List Char) (res : Strategy → Option String) : Option String :=
  if body = [] then none else tryStrategies res httpDecompressOrder

/-- The strategy order of `RoadmapSyncer._decompress_response`: zlib first,
then gzip, then UTF-8 (no raw deflate, no regional encoding). -/
def decompressResponseOrder : List Strategy := [.zlibInflate, .gzipInflate, .utf8Decode]

/-- `RoadmapSyncer._decompress_response`: first success among zlib, gzip,
UTF-8; `None` when all fail. -/
def decompress_response (res : Strategy → Option String) : Option String :=
  tryStrategies res decompressResponseOrder

/-- The strategy order of `APIFetcher._decrypt`: gzip, zlib, raw deflate,
UTF-8 (no regional encoding). -/
def decryptOrder : List Strategy := [.gzipInflate, .zlibInflate, .rawDeflate, .utf8Decode]

/-- `APIFetcher._decrypt`: first success among gzip, zlib, raw deflate,
UTF-8; raises `ValueError` (modelled as `Except.error`) after exhaustion. -/
def decrypt (res : Strategy → Option String) : Except Unit String :=
  match tryStrategies res decryptOrder with
  | some t => .ok t
  | none => .error ()

/-- The strategy order asserted by the specification for "the decoder":
gzip-framed inflate, raw zlib inflate, raw deflate, literal UTF-8, regional
8-bit encoding.  Kept separate from the source-derived orders above so the
claim can be compared against each implementation. -/
def claimedDecodeOrder : List Strategy :=
  [.gzipInflate, .zlibInflate, .rawDeflate, .utf8Decode, .gbkDecode]

/-- A strategy-outcome table on which only raw deflate succeeds (a raw
deflate-compressed payload that is not valid UTF-8/GBK text). -/
def deflateOnly : Strategy → Option String :=
  fun s => if s = .rawDeflate then some "payload" else none

/-! ## Result Codec (`convert_libo_to_mazong`, `GameProcessor._convert_libo_result`) -/

/-- A `{"result": _, "ext": _}` entry of the configurable `result_convert`
table (a JSON dict whose keys may be absent). -/
structure ConvertEntry where
  result : Option String
  ext : Option String
  deriving Repr, DecidableEq

/-- `dict.get` over an association-list model of a JSON table. -/
def dictGet {α : Type} (table : List (String × α)) (key : String) : Option α :=
  (table.find? (·.1 = key)).map (·.2)

/-- The canonical record returned by `convert_libo_to_mazong`. -/
structure MazongResult where
  result : String
  ext : String
  winner : String
  pairs : String
  deriving Repr, DecidableEq

/-- The `winner_map` dict `{"1": 龙, "2": 虎, "3": 和}` with default 未知. -/
def winnerMapGet (r : String) : String :=
  (dictGet [("1", "龙"), ("2", "虎"), ("3", "和")] r).getD "未知"

/-- `roadmap_sync.convert_libo_to_mazong`: look the code up in the
configured `result_convert` table, defaulting to `{"result": "1", "ext":
"0"}` for unknown codes, and attach the Chinese winner label. -/
def convert_libo_to_mazong (result_convert : List (String × ConvertEntry))
    (libo_code : String) : MazongResult :=
  let converted := (dictGet result_convert libo_code).getD ⟨some "1", some "0"⟩
  { result := converted.result.getD "1"
    ext := converted.ext.getD "0"
    winner := winnerMapGet (converted.result.getD "1")
    pairs := "" }

/-- The documented `result_convert` table (`10`=dragon, `20`=tie,
`30`=tiger), used to instantiate the configurable mapping. -/
def documentedResultConvert : List (String × ConvertEntry) :=
  [("10", ⟨some "1", some "0"⟩), ("20", ⟨some "3", some "0"⟩), ("30", ⟨some "2", some "0"⟩)]

/-- The hard-coded `result_map` of `GameProcessor._convert_libo_result`. -/
def liboResultMap : List (String × (String × String)) :=
  [("a", ("1", "0")), ("b", ("2", "0")), ("c", ("3", "0"))]

/-- Python `str.lower()` on one character (the upstream codes are ASCII). -/
def charLower (c : Char) : Char :=
  if 'A' ≤ c ∧ c ≤ 'Z' then Char.ofNat (c.toNat + 32) else c

/-- Python `str.lower()` on the ASCII outcome codes. -/
def strLower (s : String) : String := String.mk (s.data.map charLower)

/-- `GameProcessor._convert_libo_result`: lower-case the code (falsy codes
become `"a"`), look it up, default `('1', '0')` for unknown codes. -/
def convert_libo_result (libo_code : String) : String × String :=
  let code := if libo_code = "" then "a" else strLower libo_code
  (dictGet liboResultMap code).getD ("1", "0")

/-! ## Round Pipeline (`GameProcessor.process` and `_get_fallback_data`) -/

/-- The names bound at the top level of `src/api/libo_fetcher.py`: the module
defines class `APIFetcher`; no `LiboFetcher` exists, so
`from api.libo_fetcher import LiboFetcher` raises `ImportError`. -/
def liboFetcherModuleNames : List String :=
  ["asyncio", "zlib", "logging", "config", "APIResponse", "get_shared_session",
   "get_timeout", "logger", "APIFetcher"]

/-- `{**default_pai, **pai_result}` in `_send_to_backend`: the two-card
default fills any key missing from the recognized result. -/
def completePai (pai : AiResult) : AiResult :=
  ⟨some (pai.card1.getD unknownCard), some (pai.card2.getD unknownCard)⟩

/-- `GameProcessor._generate_simulated_pai`: canned card pairs keyed by the
outcome (`base_pai.get(result, base_pai["1"])`). -/
def generate_simulated_pai (result ext : String) : AiResult :=
  if result = "1" then ⟨some ['1', '3', '|', 'h'], some ['1', '0', '|', 'r']⟩
  else if result = "2" then ⟨some ['8', '|', 'h'], some ['1', '2', '|', 'r']⟩
  else if result = "3" then ⟨some ['7', '|', 'h'], some ['7', '|', 'r']⟩
  else ⟨some ['1', '3', '|', 'h'], some ['1', '0', '|', 'r']⟩

/-- `GameProcessor._get_default_pai`: two unknown cards. -/
def get_default_pai : AiResult := ⟨some unknownCard, some unknownCard⟩

/-- The upstream data `_get_fallback_data` would consume if its import
worked: the `results` list of the fetched roadmap (`none` models a failed or
empty fetch). -/
structure FallbackEnv where
  roadmap_results : Option (List String)
  deriving Repr, DecidableEq

/-- The `{"result": _, "ext": _, "result_pai": _}` record of
`_get_fallback_data`. -/
structure FallbackData where
  result : String
  ext : String
  result_pai : AiResult
  deriving Repr, DecidableEq

/-- `GameProcessor._get_fallback_data`: `from api.libo_fetcher import
LiboFetcher` — the name does not exist, the `ImportError` is caught by the
function's own `except` and `None` is returned; the roadmap branch below
that failing line is dead code. -/
def get_fallback_data (env : FallbackEnv) : Option FallbackData :=
  if "LiboFetcher" ∈ liboFetcherModuleNames then
    match env.roadmap_results with
    | none => none
    | some [] => none
    | some results =>
      match results.getLast? with
      | none => none
      | some latest =>
        let (r, e) := convert_libo_result latest
        some { result := r, ext := e, result_pai := generate_simulated_pai r e }
  else none

/-- Outcome of `capture_all`: it can raise (caught by the outer `except`),
return `success=False`, or succeed. -/
inductive CaptureOutcome where
  | raised
  | failed
  | ok
  deriving Repr, DecidableEq

/-- The environment of one `GameProcessor.process` invocation: outcomes of
the capture tool, the recognizer (`_recognize_cards` catches internally and
returns `None` instead of raising), the mid-process callbacks (whose
exceptions reach the outer handler), the degraded-fallback upstream fetch,
the fallback block itself, and the backend send (`_send_to_backend` catches
internally and returns a bool). -/
structure ProcEnv where
  init_capture_ok : Bool
  capture : CaptureOutcome
  ai_result : Option AiResult
  recognition_callback_raises : Bool
  exc_message : String
  fallback : FallbackEnv
  fallback_block_raises : Bool
  send_ok : Bool
  deriving Repr, DecidableEq

/-- One `send_open_card` call made through `_send_to_backend`. -/
structure Submission where
  result : String
  ext : String
  pai : AiResult
  is_simulated : Nat
  deriving Repr, DecidableEq

/-- The result dict built up by `process`. -/
structure ProcResult where
  success : Bool
  result : Option String
  ext : Option String
  result_pai : Option AiResult
  upload_success : Bool
  is_simulated : Nat
  error : Option String
  deriving Repr, DecidableEq

/-- The default-fallback submission: dragon wins, `ext` `"0"`, two unknown
cards, flagged simulated. -/
def defaultSubmission : Submission := ⟨"1", "0", completePai get_default_pai, 1⟩

/-- The `except` handler of `process`: try the degraded fallback, else send
the hard-coded default; a failure inside this block is itself swallowed and
nothing is sent. -/
def process_except_path (env : ProcEnv) (r : ProcResult) : ProcResult × List Submission :=
  let r := { r with error := some env.exc_message }
  if env.fallback_block_raises then (r, [])
  else
    match get_fallback_data env.fallback with
    | some fb =>
      ({ r with result := some fb.result, ext := some fb.ext,
                result_pai := some fb.result_pai, is_simulated := 1,
                upload_success := env.send_ok },
       [⟨fb.result, fb.ext, completePai fb.result_pai, 1⟩])
    | none =>
      ({ r with result := some "1", ext := some "0",
                result_pai := some get_default_pai, is_simulated := 1,
                upload_success := env.send_ok },
       [⟨"1", "0", completePai get_default_pai, 1⟩])

/-- `GameProcessor.process`: capture → recognize → calculate → send, with
early `return result` (no submission) when capture-tool init fails, capture
fails, recognition returns `None`, or the calculation returns `None`; the
`except` handler with its fallback tiers runs only when an exception is
raised. -/
def process (env : ProcEnv) : ProcResult × List Submission :=
  let r0 : ProcResult := ⟨false, none, none, none, false, 0, none⟩
  if env.init_capture_ok = false then
    ({ r0 with error := some "截图工具初始化失败" }, [])
  else
    match env.capture with
    | .raised => process_except_path env r0
    | .failed => ({ r0 with error := some "截图失败" }, [])
    | .ok =>
      match env.ai_result with
      | none => ({ r0 with error := some "AI识别失败" }, [])
      | some ai =>
        if env.recognition_callback_raises then process_except_path env r0
        else
          match calculate_result ai with
          | none => ({ r0 with error := some "计算结果失败" }, [])
          | some c =>
            ({ r0 with success := true, result := some c.result, ext := some c.ext,
                       result_pai := some ai, upload_success := env.send_ok, is_simulated := 0 },
             [⟨c.result, c.ext, completePai ai, 0⟩])

/-- The C1 counterexample environment: capture succeeds, both cards come back
unrecognized (`"0|0"`), so `_calculate_result` returns `None`; no exception
is raised anywhere. -/
def unknownCardsEnv : ProcEnv :=
  { init_capture_ok := true
    capture := .ok
    ai_result := some ⟨some unknownCard, some unknownCard⟩
    recognition_callback_raises := false
    exc_message := ""
    fallback := ⟨none⟩
    fallback_block_raises := false
    send_ok := true }

/-- A tracker state mid-shoe: shoe 5, round 20, 19 outcomes last observed. -/
def shoeEdgeSt : MonState := ⟨5, 20, some 19⟩

/-- An API batch whose outcome list has become empty (no `xue` field). -/
def emptyBatch : ApiData := ⟨[], []⟩

/-- An API batch carrying 15 outcome codes `"10"` (a drop from 30 previously
observed outcomes, i.e. a drop of 15). -/
def dropBatch : ApiData := ⟨List.intercalate ['#'] (List.replicate 15 ['1', '0']), []⟩

/-- An environment in which the capture step raises and nothing else goes
wrong: the exception handler runs with a working backend. -/
def raisedEnv : ProcEnv :=
  { init_capture_ok := true
    capture := .raised
    ai_result := none
    recognition_callback_raises := false
    exc_message := "capture timeout"
    fallback := ⟨none⟩
    fallback_block_raises := false
    send_ok := true }

/-! ## Theorems -/

/-- For every rank in 1..13 and any suit string, `parse_rank` recovers the
rank from the wire form `f"{rank}|{suit}"`. -/
theorem parse_rank_mkCardStr (r : Nat) (h1 : 1 ≤ r) (h2 : r ≤ 13) (s : List Char) :
    parse_rank (mkCardStr r s) = some (r : Int) := by
  interval_cases r <;> rfl

/-- `_calculate_result` on two in-range recognized cards is determined by the
rank comparison alone. -/
theorem calculate_result_mkCardStr (rA rB : Nat) (sA sB : List Char)
    (hA1 : 1 ≤ rA) (hA2 : rA ≤ 13) (hB1 : 1 ≤ rB) (hB2 : rB ≤ 13) :
    calculate_result ⟨some (mkCardStr rA sA), some (mkCardStr rB sB)⟩ =
      some ⟨if rB < rA then "1" else if rA < rB then "2" else "3", "0"⟩ := by
  simp only [calculate_result, Option.getD_some, parse_rank_mkCardStr rA hA1 hA2 sA,
    parse_rank_mkCardStr rB hB1 hB2 sB]
  have h1' : ((rA : Int) > (rB : Int)) ↔ rB < rA := by omega
  have h2' : ((rB : Int) > (rA : Int)) ↔ rA < rB := by omega
  rw [if_congr h1' rfl rfl, if_congr h2' rfl rfl]

/-- C3: for card pairs with both ranks in 1..13 the Round Resolver's result
depends only on integer rank comparison (any suit strings): result is `"1"`
iff rank(A) > rank(B), `"2"` iff rank(B) > rank(A), `"3"` iff equal, with
`ext` always the sentinel `"0"`; resolution is symmetric under swapping the
cards and resolving a pair of equal-rank cards is always a tie. -/
theorem C3_resolver_rank_comparison (rA rB : Nat) (sA sB : List Char)
    (hA1 : 1 ≤ rA) (hA2 : rA ≤ 13) (hB1 : 1 ≤ rB) (hB2 : rB ≤ 13) :
    (calculate_result ⟨some (mkCardStr rA sA), some (mkCardStr rB sB)⟩ =
        some ⟨if rB < rA then "1" else if rA < rB then "2" else "3", "0"⟩)
    ∧ ((calculate_result ⟨some (mkCardStr rA sA), some (mkCardStr rB sB)⟩ = some ⟨"1", "0"⟩)
        ↔ rB < rA)
    ∧ ((calculate_result ⟨some (mkCardStr rA sA), some (mkCardStr rB sB)⟩ = some ⟨"2", "0"⟩)
        ↔ rA < rB)
    ∧ ((calculate_result ⟨some (mkCardStr rA sA), some (mkCardStr rB sB)⟩ = some ⟨"3", "0"⟩)
        ↔ rA = rB)
    ∧ ((calculate_result ⟨some (mkCardStr rA sA), some (mkCardStr rB sB)⟩ = some ⟨"1", "0"⟩)
        ↔ (calculate_result ⟨some (mkCardStr rB sB), some (mkCardStr rA sA)⟩ = some ⟨"2", "0"⟩))
    ∧ calculate_result ⟨some (mkCardStr rA sA), some (mkCardStr rA sB)⟩ = some ⟨"3", "0"⟩ := by
  have key := calculate_result_mkCardStr rA rB sA sB hA1 hA2 hB1 hB2
  have key2 := calculate_result_mkCardStr rB rA sB sA hB1 hB2 hA1 hA2
  have key3 := calculate_result_mkCardStr rA rA sA sB hA1 hA2 hA1 hA2
  refine ⟨key, ?_, ?_, ?_, ?_, ?_⟩
  · rw [key]; split_ifs <;> simp_all
  · rw [key]; split_ifs <;> simp_all <;> omega
  · rw [key]; split_ifs <;> simp_all <;> omega
  · rw [key, key2]; split_ifs <;> simp_all <;> omega
  · rw [key3]; simp

/-- Witness for C3 at the spec's scenario: 7♠ (suit `h`) versus 3♥ (suit `r`)
resolves to dragon wins. -/
theorem C3_resolver_rank_comparison_witness :
    calculate_result ⟨some (mkCardStr 7 ['h']), some (mkCardStr 3 ['r'])⟩ = some ⟨"1", "0"⟩ :=
  (C3_resolver_rank_comparison 7 3 ['h'] ['r'] (by decide) (by decide) (by decide)
    (by decide)).2.1.mpr (by decide)

/-- C2: the reconciliation check partitions `diff = local - remote` exactly
as: 0, 1 and -1 are consistent (no action); `diff ≥ 2` triggers incremental
backfill (with the `(online_count, source_count)` arguments the code hands to
`_do_incremental_sync`); `-10 < diff ≤ -2` triggers full resync; `diff ≤ -10`
triggers the shoe-advance path; including the five boundary cases. -/
theorem C2_reconcile_partition (lcl remote : Int) :
    ((lcl - remote = 0 ∨ lcl - remote = 1 ∨ lcl - remote = -1) →
      check_and_incremental_sync lcl remote = .consistent)
    ∧ (lcl - remote ≥ 2 →
      check_and_incremental_sync lcl remote = .incremental (remote - 1) (lcl - 1))
    ∧ (-10 < lcl - remote → lcl - remote ≤ -2 →
      check_and_incremental_sync lcl remote = .fullResync)
    ∧ (lcl - remote ≤ -10 → check_and_incremental_sync lcl remote = .shoeAdvance)
    ∧ check_and_incremental_sync 10 10 = .consistent
    ∧ check_and_incremental_sync 9 10 = .consistent
    ∧ check_and_incremental_sync 12 10 = .incremental 9 11
    ∧ check_and_incremental_sync 3 10 = .fullResync
    ∧ check_and_incremental_sync 1 15 = .shoeAdvance := by
  refine ⟨?_, ?_, ?_, ?_, by decide, by decide, by decide, by decide, by decide⟩ <;>
  · intros
    simp only [check_and_incremental_sync]
    split_ifs <;> first | rfl | (exfalso; omega)

/-- Witness for C2 at `reconcile(12, 10)`: incremental backfill. -/
theorem C2_reconcile_partition_witness :
    check_and_incremental_sync 12 10 = .incremental 9 11 :=
  (C2_reconcile_partition 12 10).2.1 (by decide)

/-! ### Shared helper lemmas about the tracker transition phases -/

/-- The empty outcome string parses to the empty outcome list. -/
theorem apiResults_nil : apiResults [] = [] := rfl

/-- The shoe-id update touches neither the round number nor the recorded
outcome-list length. -/
theorem xue_update_pu (st : MonState) (x : List Char) :
    (xue_update st x).1.current_pu = st.current_pu
    ∧ (xue_update st x).1.last_pu_count = st.last_pu_count := by
  unfold xue_update
  cases h : (if x ≠ ([] : List Char) then parseInt x else none) <;> simp
  split <;> simp

/-- After a successful parse of the `xue` field the stored shoe id is the
parsed value. -/
theorem xue_update_val (st : MonState) (x : List Char) (v : Int)
    (hx : (if x ≠ ([] : List Char) then parseInt x else none) = some v) :
    (xue_update st x).1.current_xue = v := by
  unfold xue_update
  rw [hx]
  split
  · split_ifs <;> simp_all
  · simp_all

/-- A state already holding the parsed shoe id is a fixed point of the
shoe-id update, and no callback fires. -/
theorem xue_update_fix (st : MonState) (x : List Char)
    (h : ∀ v, (if x ≠ ([] : List Char) then parseInt x else none) = some v →
      st.current_xue = v) :
    xue_update st x = (st, []) := by
  unfold xue_update
  cases hx : (if x ≠ ([] : List Char) then parseInt x else none) <;> simp
  exact (h _ hx).symm

/-- Shoe-change detection touches neither the shoe id nor the recorded
outcome-list length. -/
theorem shoe_detect_keep (st : MonState) (pc : Int) :
    (shoe_detect st pc).1.current_xue = st.current_xue
    ∧ (shoe_detect st pc).1.last_pu_count = st.last_pu_count := by
  cases hl : st.last_pu_count <;>
    simp [shoe_detect, hl, trigger_shoe_change] <;>
    split_ifs <;> simp_all

/-- When the recorded length already equals the current length, neither
detection condition can fire. -/
theorem shoe_detect_self (st : MonState) (pc : Int) (h : st.last_pu_count = some pc) :
    shoe_detect st pc = (st, []) := by
  simp only [shoe_detect, h]
  rw [if_neg (by omega), if_neg (by omega)]

/-- Whenever either detection condition holds, `_trigger_shoe_change` runs:
the round number resets to 1 and `on_pu_change(1)` and `on_shoe_change()`
fire. -/
theorem shoe_detect_fire (st : MonState) (pc last : Int) (hl : st.last_pu_count = some last)
    (hfire : (last > 0 ∧ pc = 0) ∨ (last > 10 ∧ pc < 5 ∧ last - pc > 10)) :
    shoe_detect st pc = ({ st with current_pu := 1 }, [.puChange 1, .shoeChange]) := by
  simp only [shoe_detect, hl, trigger_shoe_change]
  by_cases c1 : last > 0 ∧ pc = 0
  · simp [c1]
  · rcases hfire with h | h
    · exact absurd h c1
    · simp [c1, h]

/-- On a non-empty outcome string the calibration leaves the round number at
`pu_count + 1` whether or not it had to change. -/
theorem pu_calibrate_nonempty (st : MonState) (result : List Char) (pc : Int)
    (h : result ≠ []) : (pu_calibrate st result pc).1.current_pu = pc + 1 := by
  simp only [pu_calibrate, if_pos h]
  by_cases hc : pc + 1 ≠ st.current_pu <;> simp [hc] <;> omega

/-- Round-number calibration touches neither the shoe id nor the recorded
outcome-list length. -/
theorem pu_calibrate_keep (st : MonState) (result : List Char) (pc : Int) :
    (pu_calibrate st result pc).1.current_xue = st.current_xue
    ∧ (pu_calibrate st result pc).1.last_pu_count = st.last_pu_count := by
  simp only [pu_calibrate]
  split_ifs <;> simp

/-- A state already calibrated is a fixed point of the calibration, and no
callback fires. -/
theorem pu_calibrate_fix (st : MonState) (result : List Char) (pc : Int)
    (h : result ≠ [] → st.current_pu = pc + 1) :
    pu_calibrate st result pc = (st, []) := by
  simp only [pu_calibrate]
  by_cases hr : result = []
  · simp [hr]
  · rw [if_pos hr, if_neg]
    intro hne
    exact hne (h hr).symm

/-- After `_handle_game_api` the recorded length equals the batch's outcome
count, and the shoe id is whatever the xue-field update produced. -/
theorem handle_game_api_fields (st : MonState) (data : ApiData) :
    (handle_game_api st data).1.last_pu_count = some ((apiResults data.result).length : Int)
    ∧ (handle_game_api st data).1.current_xue = (xue_update st data.xue).1.current_xue := by
  simp only [handle_game_api]
  refine ⟨(pu_calibrate_keep _ _ _).2, ?_⟩
  rw [(pu_calibrate_keep _ _ _).1]
  exact (shoe_detect_keep _ _).1

/-- Any state agreeing with the batch (shoe id, recorded length, calibrated
round) is a fixed point of `_handle_game_api` and fires no callback. -/
theorem handle_game_api_fix (stA : MonState) (data : ApiData)
    (hlast : stA.last_pu_count = some ((apiResults data.result).length : Int))
    (hxue : ∀ v, (if data.xue ≠ ([] : List Char) then parseInt data.xue else none) = some v →
      stA.current_xue = v)
    (hpu : data.result ≠ [] → stA.current_pu = ((apiResults data.result).length : Int) + 1) :
    handle_game_api stA data = (stA, []) := by
  simp only [handle_game_api]
  rw [xue_update_fix stA data.xue hxue, shoe_detect_self stA _ hlast]
  have hst3 : { stA with last_pu_count := some ((apiResults data.result).length : Int) } = stA := by
    obtain ⟨a, b, c⟩ := stA
    simp_all
  simp only [hst3]
  rw [pu_calibrate_fix stA data.result _ hpu]
  simp

/-! ### Claim theorems C4, C5, C6 -/

/-- C4: after any API-batch edge whose outcome list is non-empty the
tracker's round number equals `len(outcomes) + 1`, whatever it was before,
and processing the same batch a second time leaves the state unchanged and
fires no callback (the recomputation is an assignment from the batch, never
an increment relative to prior state). -/
theorem C4_api_batch_recompute (st : MonState) (data : ApiData) :
    (apiResults data.result ≠ [] →
      (handle_game_api st data).1.current_pu = ((apiResults data.result).length : Int) + 1)
    ∧ handle_game_api (handle_game_api st data).1 data = ((handle_game_api st data).1, []) := by
  have hpu : data.result ≠ [] →
      (handle_game_api st data).1.current_pu = ((apiResults data.result).length : Int) + 1 := by
    intro hr
    simp only [handle_game_api]
    exact pu_calibrate_nonempty _ _ _ hr
  refine ⟨fun h => hpu (fun he => by rw [he, apiResults_nil] at h; exact h rfl), ?_⟩
  apply handle_game_api_fix
  · exact (handle_game_api_fields st data).1
  · intro v hv
    rw [(handle_game_api_fields st data).2]
    exact xue_update_val st data.xue v hv
  · exact hpu

/-- Witness for C4: a tracker at round 1 fed a one-outcome batch holds
`current_pu = 1 + 1`. -/
theorem C4_api_batch_recompute_witness :
    (handle_game_api ⟨1, 1, none⟩ ⟨['1', '0'], []⟩).1.current_pu
      = ((apiResults ['1', '0']).length : Int) + 1 :=
  (C4_api_batch_recompute ⟨1, 1, none⟩ ⟨['1', '0'], []⟩).1 (by decide)

/-- C5 (amended): whenever a shoe-advance edge fires — the outcome list
became empty after being non-empty, or the length dropped by more than 10
with the previous count above 10 and the new count below 5 — the
`on_shoe_change` notification is emitted and the round number resets to 1
(immediately recalibrated to `len+1` if the same batch still carries
outcomes); the local shoe number is NOT incremented by this edge: absent a
changed upstream `xue` field it is left as it was. -/
theorem C5_shoe_edge (st : MonState) (data : ApiData) (last : Int)
    (hl : st.last_pu_count = some last)
    (hfire : (last > 0 ∧ ((apiResults data.result).length : Int) = 0)
      ∨ (last > 10 ∧ ((apiResults data.result).length : Int) < 5
          ∧ last - ((apiResults data.result).length : Int) > 10)) :
    MonEvent.shoeChange ∈ (handle_game_api st data).2
    ∧ (handle_game_api st data).1.current_pu =
        (if data.result = [] then 1 else ((apiResults data.result).length : Int) + 1)
    ∧ (data.xue = [] → (handle_game_api st data).1.current_xue = st.current_xue) := by
  have hl1 : (xue_update st data.xue).1.last_pu_count = some last := by
    rw [(xue_update_pu st data.xue).2]; exact hl
  have hfire' := shoe_detect_fire (xue_update st data.xue).1
    ((apiResults data.result).length : Int) last hl1 hfire
  refine ⟨?_, ?_, ?_⟩
  · simp only [handle_game_api, hfire']
    simp
  · simp only [handle_game_api, hfire']
    by_cases hr : data.result = []
    · rw [if_pos hr, pu_calibrate_fix _ _ _ (fun hne => absurd hr hne)]
    · rw [if_neg hr]
      exact pu_calibrate_nonempty _ _ _ hr
  · intro hx
    have hxe : xue_update st data.xue = (st, []) := by
      rw [hx]; rfl
    simp only [handle_game_api, hxe] at hfire' ⊢
    simp only [hfire']
    rw [(pu_calibrate_keep _ _ _).1]

/-- Witness for C5 as amended: shoe 5 at round 20 with 19 recorded outcomes
receives an empty batch; the shoe-change notification fires. -/
theorem C5_shoe_edge_witness :
    MonEvent.shoeChange ∈ (handle_game_api shoeEdgeSt emptyBatch).2 :=
  (C5_shoe_edge shoeEdgeSt emptyBatch 19 rfl (by decide)).1

/-- Counterexample for C5 as stated: on the empty-after-non-empty edge the
tracker's shoe number stays 5 — it is not incremented to 6 — while the round
resets to 1 and the notification fires; and a drop of 15 outcomes (30 to 15)
exceeds the threshold 10 yet fires no shoe-advance edge, because the code
also requires the new count to be below 5. -/
theorem C5_shoe_edge_counterexample :
    MonEvent.shoeChange ∈ (handle_game_api shoeEdgeSt emptyBatch).2
    ∧ (handle_game_api shoeEdgeSt emptyBatch).1.current_pu = 1
    ∧ (handle_game_api shoeEdgeSt emptyBatch).1.current_xue = shoeEdgeSt.current_xue
    ∧ ¬((handle_game_api shoeEdgeSt emptyBatch).1.current_xue = shoeEdgeSt.current_xue + 1)
    ∧ MonEvent.shoeChange ∉ (handle_game_api ⟨5, 31, some 30⟩ dropBatch).2
    ∧ (30 : Int) - ((apiResults dropBatch.result).length : Int) > 10 := by
  decide

/-- C6: the round-advance edge increments `current_pu` by exactly 1 precisely
when the DOM game-number differs from the cache, the cached value was
non-null and the new value is non-empty; in that case the `on_pu_change` and
`on_new_game` events fire and the cache is updated; with a null cached value
(first observation) or otherwise unmet conditions the round number is
unchanged. -/
theorem C6_round_advance (st : DomTrackState) (new_val : Option (List Char)) :
    ((handle_game_number st new_val).1.current_pu = st.current_pu + 1
      ↔ (new_val ≠ st.game_number ∧ st.game_number ≠ none ∧ truthyStr new_val = true))
    ∧ ((new_val ≠ st.game_number ∧ st.game_number ≠ none ∧ truthyStr new_val = true) →
        (handle_game_number st new_val).2
          = [MonEvent.puChange (st.current_pu + 1), MonEvent.newGame (new_val.getD [])]
        ∧ (handle_game_number st new_val).1.game_number = new_val)
    ∧ (st.game_number = none → (handle_game_number st new_val).1.current_pu = st.current_pu)
    ∧ (¬(new_val ≠ st.game_number ∧ st.game_number ≠ none ∧ truthyStr new_val = true) →
        (handle_game_number st new_val).1.current_pu = st.current_pu) := by
  by_cases h1 : new_val ≠ st.game_number
  · by_cases h2 : st.game_number ≠ none ∧ truthyStr new_val = true
    · simp only [handle_game_number, if_pos h1, if_pos h2]
      simp [h1, h2, h2.2]
    · simp only [handle_game_number, if_pos h1, if_neg h2]
      simp [h1, h2]
  · simp only [ne_eq, not_not] at h1
    simp [handle_game_number, h1]

/-- Witness for C6: cached game number `"1"`, new DOM value `"2"`: the round
number increments from 3 to 4. -/
theorem C6_round_advance_witness :
    (handle_game_number ⟨some ['1'], 3, true⟩ (some ['2'])).1.current_pu = 3 + 1 :=
  ((C6_round_advance ⟨some ['1'], 3, true⟩ (some ['2'])).1).mpr (by decide)

/-! ### Claim theorems C7, C8 -/

/-- Running the strategy list yields `none` exactly when every strategy in it
fails. -/
theorem tryStrategies_eq_none_iff (res : Strategy → Option String) (l : List Strategy) :
    tryStrategies res l = none ↔ ∀ s ∈ l, res s = none := by
  induction l with
  | nil => simp [tryStrategies]
  | cons s rest ih =>
    simp only [tryStrategies]
    cases h : res s <;> simp [h, ih]

/-- A successful run returns the output of one of the listed strategies. -/
theorem tryStrategies_some (res : Strategy → Option String) (l : List Strategy) (t : String) :
    tryStrategies res l = some t → ∃ s ∈ l, res s = some t := by
  induction l with
  | nil => simp [tryStrategies]
  | cons s rest ih =>
    simp only [tryStrategies]
    cases h : res s with
    | some u =>
      intro he
      simp at he
      exact ⟨s, by simp, by rw [h, he]⟩
    | none =>
      intro ht
      obtain ⟨s', hs', h'⟩ := ih ht
      exact ⟨s', by simp [hs'], h'⟩

/-- C7 (amended): only `HttpMonitor.decompress` follows the claimed order
gzip, zlib, raw deflate, UTF-8, regional encoding (and for non-empty input it
equals running exactly that list); `RoadmapSyncer._decompress_response` tries
zlib, gzip, UTF-8 only, and `APIFetcher._decrypt` tries gzip, zlib, raw
deflate, UTF-8, raising only on exhaustion; in each decoder a single
strategy's failure never aborts — the error outcome occurs exactly when every
strategy of that decoder's own list has failed. -/
theorem C7_decoder_orders (res : Strategy → Option String) (body : List Char) :
    (body ≠ [] → http_decompress body res = tryStrategies res claimedDecodeOrder)
    ∧ (http_decompress body res = none ↔ (body = [] ∨ ∀ s ∈ httpDecompressOrder, res s = none))
    ∧ (decompress_response res = none ↔ ∀ s ∈ decompressResponseOrder, res s = none)
    ∧ (∀ t, decompress_response res = some t → ∃ s ∈ decompressResponseOrder, res s = some t)
    ∧ ((∃ t, decrypt res = .ok t) ↔ ¬(∀ s ∈ decryptOrder, res s = none))
    ∧ (decrypt res = .error () ↔ ∀ s ∈ decryptOrder, res s = none) := by
  have hiff := tryStrategies_eq_none_iff res decryptOrder
  refine ⟨?_, ?_, tryStrategies_eq_none_iff res decompressResponseOrder,
    tryStrategies_some res decompressResponseOrder, ?_, ?_⟩
  · intro h
    simp [http_decompress, h]
    rfl
  · by_cases hb : body = [] <;>
      simp [http_decompress, hb, tryStrategies_eq_none_iff]
  · cases h : tryStrategies res decryptOrder with
    | some t =>
      obtain ⟨s, hs, hres⟩ := tryStrategies_some res decryptOrder t h
      simp [decrypt, h]
      exact ⟨s, hs, by simp [hres]⟩
    | none =>
      simp [decrypt, h]
      exact hiff.mp h
  · cases h : tryStrategies res decryptOrder with
    | some t =>
      obtain ⟨s, hs, hres⟩ := tryStrategies_some res decryptOrder t h
      simp [decrypt, h]
      exact ⟨s, hs, by simp [hres]⟩
    | none =>
      simp [decrypt, h]
      exact hiff.mp h

/-- Witness for C7 as amended: on a non-empty body, `HttpMonitor.decompress`
coincides with the claimed strategy order. -/
theorem C7_decoder_orders_witness :
    http_decompress ['x'] deflateOnly = tryStrategies deflateOnly claimedDecodeOrder :=
  (C7_decoder_orders deflateOnly ['x']).1 (by decide)

/-- Counterexample for C7 as stated: on an input whose raw-deflate strategy
succeeds (and nothing else), the claimed strategy order would decode it, but
`RoadmapSyncer._decompress_response` — one of the decoders the claim covers —
returns `None` because it never tries raw deflate; also
`HttpMonitor.decompress` returns `None` for an empty body even though the
literal UTF-8 strategy succeeds on it. -/
theorem C7_decoder_orders_counterexample :
    decompress_response deflateOnly = none
    ∧ tryStrategies deflateOnly claimedDecodeOrder = some "payload"
    ∧ Strategy.rawDeflate ∈ claimedDecodeOrder
    ∧ deflateOnly Strategy.rawDeflate = some "payload"
    ∧ http_decompress [] (fun _ => some "") = none := by
  decide

/-- C8 (amended): the monitor-loop iteration exits only on cancellation or
`is_running = false`; every other signal — including unexpected exceptions —
continues the loop; a DOM-check failure increments the consecutive-failure
counter, and on reaching TEN (the code's `max_consecutive_errors`, not five)
the iteration backs off with a sleep and resets the counter to zero; a
successful DOM check resets the counter. -/
theorem C8_loop (running : Bool) (sig : IterSignal) (errs : Nat) :
    ((monitor_iteration running sig errs).1 = .exit ↔ (sig = .cancelled ∨ running = false))
    ∧ (running = true → sig = .domFail → errs + 1 < 10 →
        monitor_iteration running sig errs = (.cont false, errs + 1))
    ∧ (running = true → sig = .domFail → errs + 1 ≥ 10 →
        monitor_iteration running sig errs = (.cont true, 0))
    ∧ (running = true → sig ≠ .cancelled → sig ≠ .domFail →
        (monitor_iteration running sig errs).1 = .cont false) := by
  cases running <;> cases sig <;>
    simp only [monitor_iteration] <;>
    split_ifs <;> simp_all

/-- Witness for C8 as amended: a running iteration with a first DOM failure
continues without backoff, counter 1. -/
theorem C8_loop_witness :
    monitor_iteration true .domFail 0 = (.cont false, 1) :=
  (C8_loop true .domFail 0).2.1 rfl rfl (by decide)

/-- Counterexample for C8 as stated: after five consecutive DOM-check
failures from a fresh counter the loop has NOT backed off and the counter
stands at 5, not 0 — the code's threshold is ten, not five. -/
theorem C8_loop_counterexample :
    domFailStep^[5] 0 = 5
    ∧ (monitor_iteration true .domFail 4).1 = .cont false
    ∧ (∀ k, k < 5 → (monitor_iteration true .domFail k).1 = IterOutcome.cont false) := by
  decide

/-! ### Claim theorems C9, C1, C10 -/

/-- A successful dict lookup returns the value of some entry of the table. -/
theorem dictGet_some {α : Type} {table : List (String × α)} {key : String} {v : α}
    (h : dictGet table key = some v) : ∃ p ∈ table, p.2 = v := by
  unfold dictGet at h
  cases hf : List.find? (fun p => p.1 = key) table with
  | none => rw [hf] at h; simp at h
  | some pr =>
    rw [hf] at h
    simp at h
    exact ⟨pr, List.mem_of_find?_eq_some hf, h⟩

/-- C9 (amended): the codec is a total pure function that never raises:
codes outside the configured mapping translate to the DRAGON-WIN DEFAULT
`("1", "0")` (winner label 龙), not to an unknown sentinel; likewise
`_convert_libo_result` maps unknown codes to `('1', '0')` and always returns
one of the three defined outcomes, so one malformed code never blocks the
rest of the batch. -/
theorem C9_codec_default (table : List (String × ConvertEntry)) (code : String) :
    (dictGet table code = none →
      convert_libo_to_mazong table code = ⟨"1", "0", "龙", ""⟩)
    ∧ (convert_libo_to_mazong table code).pairs = ""
    ∧ (dictGet liboResultMap (if code = "" then "a" else strLower code) = none →
        convert_libo_result code = ("1", "0"))
    ∧ (convert_libo_result code = ("1", "0") ∨ convert_libo_result code = ("2", "0")
        ∨ convert_libo_result code = ("3", "0")) := by
  refine ⟨?_, rfl, ?_, ?_⟩
  · intro h
    simp [convert_libo_to_mazong, h]
    rfl
  · intro h
    simp only [convert_libo_result, h, Option.getD_none]
  · simp only [convert_libo_result]
    cases hd : dictGet liboResultMap (if code = "" then "a" else strLower code) with
    | none => simp [hd]
    | some v =>
      obtain ⟨p, hp, hv⟩ := dictGet_some hd
      simp [hd]
      simp [liboResultMap] at hp
      rcases hp with h | h | h <;> rw [← hv, h] <;> simp

/-- Witness for C9 as amended: the unmapped code `"99"` translates to the
dragon-win default record. -/
theorem C9_codec_default_witness :
    convert_libo_to_mazong documentedResultConvert "99" = ⟨"1", "0", "龙", ""⟩ :=
  (C9_codec_default documentedResultConvert "99").1 (by decide)

/-- Counterexample for C9 as stated: the unmapped code `"99"` translates to
exactly the same record as the dragon code `"10"` — winner 龙, not the
codec's unknown marker 未知 — and `_convert_libo_result` likewise collapses
the unknown code `"zz"` onto the dragon outcome. -/
theorem C9_codec_default_counterexample :
    convert_libo_to_mazong documentedResultConvert "99"
      = convert_libo_to_mazong documentedResultConvert "10"
    ∧ (convert_libo_to_mazong documentedResultConvert "99").winner = "龙"
    ∧ (convert_libo_to_mazong documentedResultConvert "99").winner ≠ "未知"
    ∧ dictGet documentedResultConvert "99" = none
    ∧ convert_libo_result "zz" = ("1", "0")
    ∧ convert_libo_result "a" = ("1", "0")
    ∧ dictGet liboResultMap "zz" = none := by
  decide

/-- The degraded-fallback fetch always returns `None`: the import of
`LiboFetcher` from `api.libo_fetcher` fails (the module only defines
`APIFetcher`) and the error is swallowed. -/
theorem get_fallback_data_none (fb : FallbackEnv) : get_fallback_data fb = none := by
  unfold get_fallback_data
  rw [if_neg (by decide)]

/-- C1 (amended): the pipeline submits exactly one result when capture,
recognition and calculation all succeed, and exactly one fallback-tier result
when an exception interrupts processing (none if the fallback block itself
raises); but the non-exception failure paths — capture-tool init failure,
capture failure, recognition returning `None`, and a failed result
calculation — return WITHOUT attempting any backend submission. -/
theorem C1_submission_paths (env : ProcEnv) :
    (env.init_capture_ok = false → (process env).2 = [])
    ∧ (env.init_capture_ok = true → env.capture = .failed → (process env).2 = [])
    ∧ (env.init_capture_ok = true → env.capture = .ok → env.ai_result = none →
        (process env).2 = [])
    ∧ (∀ ai, env.init_capture_ok = true → env.capture = .ok → env.ai_result = some ai →
        env.recognition_callback_raises = false → calculate_result ai = none →
        (process env).2 = [])
    ∧ (∀ ai c, env.init_capture_ok = true → env.capture = .ok → env.ai_result = some ai →
        env.recognition_callback_raises = false → calculate_result ai = some c →
        (process env).2 = [⟨c.result, c.ext, completePai ai, 0⟩])
    ∧ (env.init_capture_ok = true → env.capture = .raised → env.fallback_block_raises = false →
        (process env).2 = [defaultSubmission])
    ∧ (env.init_capture_ok = true → env.capture = .raised → env.fallback_block_raises = true →
        (process env).2 = []) := by
  refine ⟨?_, ?_, ?_, ?_, ?_, ?_, ?_⟩
  · intro h0
    simp [process, h0]
  · intro h0 hc
    simp [process, h0, hc]
  · intro h0 hc hai
    simp [process, h0, hc, hai]
  · intro ai h0 hc hai hr hcalc
    simp [process, h0, hc, hai, hr, hcalc]
  · intro ai c h0 hc hai hr hcalc
    simp [process, h0, hc, hai, hr, hcalc]
  · intro h0 hc hf
    simp [process, h0, hc, hf, process_except_path, get_fallback_data_none, defaultSubmission]
  · intro h0 hc hf
    simp [process, h0, hc, hf, process_except_path]

/-- Witness for C1 as amended: with the capture step raising, the handler
submits exactly the default-fallback result. -/
theorem C1_submission_paths_witness :
    (process raisedEnv).2 = [defaultSubmission] :=
  (C1_submission_paths raisedEnv).2.2.2.2.2.1 rfl rfl rfl

/-- Counterexample for C1 as stated: with capture succeeding but both cards
unrecognized, `_calculate_result` returns `None` and `process` returns with
the error set and ZERO backend submissions — no exception is raised, so the
fallback tiers never run and the round is dropped. -/
theorem C1_submission_paths_counterexample :
    (process unknownCardsEnv).2 = []
    ∧ (process unknownCardsEnv).1.error = some "计算结果失败"
    ∧ (process unknownCardsEnv).1.success = false := by
  decide

/-- C10: `_get_fallback_data` returns `None` for every input (the imported
name `LiboFetcher` does not exist in `api.libo_fetcher` and the resulting
error is swallowed); consequently whenever the exception handler runs and
does not itself raise, the submitted result is always the hard-coded default
— winner `"1"`, ext `"0"`, unknown cards, flagged simulated — and no
simulated submission other than the default ever occurs. -/
theorem C10_degraded_fallback_dead (env : ProcEnv) (fb : FallbackEnv) :
    get_fallback_data fb = none
    ∧ (env.init_capture_ok = true → env.capture = .raised → env.fallback_block_raises = false →
        (process env).2 = [defaultSubmission]
        ∧ (process env).1.result = some "1"
        ∧ (process env).1.ext = some "0"
        ∧ (process env).1.result_pai = some get_default_pai
        ∧ (process env).1.is_simulated = 1)
    ∧ (∀ ai, env.init_capture_ok = true → env.capture = .ok → env.ai_result = some ai →
        env.recognition_callback_raises = true → env.fallback_block_raises = false →
        (process env).2 = [defaultSubmission])
    ∧ (∀ s ∈ (process env).2, s.is_simulated = 1 → s = defaultSubmission) := by
  refine ⟨get_fallback_data_none fb, ?_, ?_, ?_⟩
  · intro h0 hc hf
    simp [process, h0, hc, hf, process_except_path, get_fallback_data_none, defaultSubmission]
  · intro ai h0 hc hai hr hf
    simp [process, h0, hc, hai, hr, hf, process_except_path, get_fallback_data_none,
      defaultSubmission]
  · intro s hs hsim
    by_cases h0 : env.init_capture_ok = true
    · cases hc : env.capture with
      | raised =>
        by_cases hf : env.fallback_block_raises = true
        · simp [process, h0, hc, hf, process_except_path] at hs
        · simp only [Bool.not_eq_true] at hf
          simp [process, h0, hc, hf, process_except_path, get_fallback_data_none] at hs
          rw [hs]
          rfl
      | failed => simp [process, h0, hc] at hs
      | ok =>
        cases hai : env.ai_result with
        | none => simp [process, h0, hc, hai] at hs
        | some ai =>
          by_cases hr : env.recognition_callback_raises = true
          · by_cases hf : env.fallback_block_raises = true
            · simp [process, h0, hc, hai, hr, hf, process_except_path] at hs
            · simp only [Bool.not_eq_true] at hf
              simp [process, h0, hc, hai, hr, hf, process_except_path,
                get_fallback_data_none] at hs
              rw [hs]
              rfl
          · simp only [Bool.not_eq_true] at hr
            cases hcalc : calculate_result ai with
            | none => simp [process, h0, hc, hai, hr, hcalc] at hs
            | some c =>
              simp [process, h0, hc, hai, hr, hcalc] at hs
              rw [hs] at hsim
              simp at hsim
    · simp only [Bool.not_eq_true] at h0
      simp [process, h0] at hs

/-- Witness for C10: the handler path on a capture exception produces the
default submission with the unknown-cards record, flagged simulated. -/
theorem C10_degraded_fallback_dead_witness :
    (process raisedEnv).2 = [defaultSubmission]
    ∧ (process raisedEnv).1.result = some "1"
    ∧ (process raisedEnv).1.ext = some "0"
    ∧ (process raisedEnv).1.result_pai = some get_default_pai
    ∧ (process raisedEnv).1.is_simulated = 1 :=
  (C10_degraded_fallback_dead raisedEnv ⟨some ["a"]⟩).2.1 rfl rfl rfl

end DragonTiger
